import Mathlib

/-!
Verification of the CSI video-stream services (`enhanced_csi.py`).

The development shallowly embeds the `_BaseVideoStream` class and the
`JetsonVideoStream` configuration table:

* a frame is modelled opaquely by a natural-number identifier;
* the `deque(maxlen=2)` frame queue is a Lean list whose head is the
  left end of the deque (`appendleft` pushes at the head; when the
  deque is full the rightmost element is silently discarded;
  `pop()` removes from the right end, i.e. the last list element);
* one call `self._stream.read()` of the cv2 backend is an
  `Option Frame`: `some f` when `grabbed` is true and the frame is not
  `None`, and `none` when the read fails;
* the `_update` capture loop is a function consuming a list of backend
  read results (the tape); the `read` poll loop is modelled by the body
  of one poll iteration, whose `blocked` outcome means the loop spins
  again.
-/

namespace EnhancedCsi

/-- A captured image buffer, modelled opaquely by an identifier. -/
abbrev Frame := Nat

/-- The result of one `self._stream.read()` call of the backend:
`some f` when `grabbed` is true and the frame is not `None`,
`none` when `grabbed is False or frame is None`. -/
abbrev ReadResult := Option Frame

/-- The mutable fields of `_BaseVideoStream` relevant to frame flow and
statistics, as set up by `__init__` and mutated by `_update`, `read`,
`update_fps_stats` and the consumer. The `frame_queue` list's head is the
left end of the Python deque. -/
structure StreamSt where
  frames_read : Nat
  frames_displayed : Nat
  last_frames_read : Nat
  last_frames_displayed : Nat
  frame_queue : List Frame
  stopped : Bool
  update_failure : Bool
  thread_started : Bool
  deriving Repr, DecidableEq

/-- The state established by `_BaseVideoStream.__init__`: zeroed counters, an
empty `deque(maxlen=2)`, no failure, not stopped, no capture thread yet. -/
def initState : StreamSt :=
  { frames_read := 0
    frames_displayed := 0
    last_frames_read := 0
    last_frames_displayed := 0
    frame_queue := []
    stopped := false
    update_failure := false
    thread_started := false }

/-- Python `deque(maxlen=2).appendleft x`: the new element enters at the left
end; if the deque already holds 2 elements, the rightmost (oldest) one is
discarded. -/
def dequeAppendleft (x : Frame) (q : List Frame) : List Frame :=
  List.take 2 (x :: q)

/-- Python `deque.pop()`: removes and returns the rightmost element, or
reports the deque empty. -/
def dequePop (q : List Frame) : Option (Frame × List Frame) :=
  match q.getLast? with
  | some f => some (f, q.dropLast)
  | none => none

/-- The `_update` capture loop run over a tape of backend read results.
Each iteration first tests `self._stopped` and returns if it is set;
otherwise it performs the next backend read: on failure it sets
`self._update_failure` and returns (no retry), on success it increments
`frames_read` and `appendleft`s the frame. An exhausted tape leaves the
loop blocked inside the backend read. -/
def updateRun : List ReadResult → StreamSt → StreamSt
  | [], s => s
  | r :: rest, s =>
    if s.stopped then s
    else
      match r with
      | none => { s with update_failure := true }
      | some f =>
        updateRun rest
          { s with
              frames_read := s.frames_read + 1
              frame_queue := dequeAppendleft f s.frame_queue }

/-- Outcome of one iteration of the poll loop inside `read`. -/
inductive ReadOutcome where
  | raisedConnectionLost
  | got (f : Frame) (rest : List Frame)
  | blocked
  deriving Repr, DecidableEq

/-- One iteration of the busy-wait loop in `_BaseVideoStream.read`: the
failure flag is tested first and raises `CameraConnectionLost`; only
otherwise is the queue length tested, and a non-empty queue is popped from
the right end; an empty queue spins the loop again (`blocked`). -/
def readPoll (s : StreamSt) : ReadOutcome :=
  if s.update_failure then .raisedConnectionLost
  else
    match s.frame_queue.getLast? with
    | some f => .got f s.frame_queue.dropLast
    | none => .blocked

/-! ### Generic lemmas about the capture loop -/

theorem take_append_take (n : Nat) (a b : List Frame) :
    List.take n (a ++ List.take n b) = List.take n (a ++ b) := by
  rw [List.take_append_eq_append_take, List.take_append_eq_append_take,
    List.take_take]
  congr 1
  exact congrArg (fun k => List.take k b) (Nat.min_eq_left (Nat.sub_le n a.length))

/-- Running the capture loop over a tape of successful reads increments
`frames_read` once per frame and leaves the queue holding the two most
recent frames (newest first), all other fields untouched. -/
theorem updateRun_somes (fs : List Frame) (s : StreamSt)
    (hstop : s.stopped = false) (hlen : s.frame_queue.length ≤ 2) :
    updateRun (fs.map some) s =
      { s with
          frames_read := s.frames_read + fs.length
          frame_queue := List.take 2 (fs.reverse ++ s.frame_queue) } := by
  induction fs generalizing s with
  | nil =>
    simp [updateRun, List.take_of_length_le hlen]
  | cons f fs ih =>
    have h1 :
        updateRun ((f :: fs).map some) s =
          updateRun (fs.map some)
            { s with
                frames_read := s.frames_read + 1
                frame_queue := dequeAppendleft f s.frame_queue } := by
      simp [updateRun, hstop]
    rw [h1,
      ih { s with
             frames_read := s.frames_read + 1
             frame_queue := dequeAppendleft f s.frame_queue }
        hstop (by simp [dequeAppendleft])]
    simp only [StreamSt.mk.injEq, dequeAppendleft, List.reverse_cons,
      List.length_cons]
    refine ⟨by omega, trivial, trivial, trivial, ?_, trivial, trivial, trivial⟩
    rw [take_append_take]
    simp

/-! ### Claim C1 -/

/-- C1: after pushes P1, P2, P3 in that order through the capture loop with
no interleaved pops, the first `read` poll pops P2 (the second-most-recently
pushed frame), not P3, leaving P3 in the queue: pushes land on the new end
and retrieval drains from the old end of the capacity-2 deque. -/
theorem claim_C1 (p1 p2 p3 : Frame) :
    readPoll (updateRun [some p1, some p2, some p3] initState) =
      .got p2 [p3] := by
  rfl

/-! ### Claim C2 -/

/-- C2: the frame queue never holds more than 2 frames: after any sequence
of N pushes with N > 2 and no pops, the queue is exactly the 2
most-recently pushed frames (newest first); every older frame has been
discarded. -/
theorem claim_C2 (fs : List Frame) (h : 2 < fs.length) :
    (updateRun (fs.map some) initState).frame_queue = List.take 2 fs.reverse ∧
    (updateRun (fs.map some) initState).frame_queue.length = 2 := by
  have hrun := updateRun_somes fs initState rfl (by simp [initState])
  constructor
  · rw [hrun]
    simp [initState]
  · rw [hrun]
    simp [initState]
    omega

/-- Concrete instantiation of C2: pushing 1, 2, 3 retains exactly [3, 2]. -/
theorem claim_C2_witness :
    (updateRun ([1, 2, 3].map some) initState).frame_queue =
        List.take 2 [1, 2, 3].reverse ∧
    (updateRun ([1, 2, 3].map some) initState).frame_queue.length = 2 :=
  claim_C2 [1, 2, 3] (by decide)

/-! ### Claim C9 -/

/-- C9: whenever the failure flag is set at the moment a `read` poll
iteration checks it, the poll raises `CameraConnectionLost`, whatever the
frame queue holds: the failure check strictly precedes the buffer check,
so buffered frames are never delivered once the flag is observed. -/
theorem claim_C9 (s : StreamSt) (h : s.update_failure = true) :
    readPoll s = .raisedConnectionLost := by
  simp [readPoll, h]

/-- Concrete instantiation of C9 at a state whose queue is non-empty:
the buffered frames 5 and 7 are not delivered once the flag is set. -/
theorem claim_C9_witness :
    ({ initState with
         frame_queue := [5, 7]
         update_failure := true } : StreamSt).frame_queue ≠ [] ∧
    readPoll { initState with
                 frame_queue := [5, 7]
                 update_failure := true } = .raisedConnectionLost :=
  ⟨by decide, claim_C9 _ rfl⟩

/-! ### Claim C3 -/

/-- Once the capture loop hits a failed backend read, it sets the failure
flag and returns at once: whatever would come later on the tape is never
consumed. -/
theorem updateRun_fail (pre : List Frame) (junk : List ReadResult)
    (s : StreamSt) (hstop : s.stopped = false) :
    updateRun (pre.map some ++ none :: junk) s =
      { updateRun (pre.map some) s with update_failure := true } := by
  induction pre generalizing s with
  | nil => simp [updateRun, hstop]
  | cons f fs ih =>
    simp only [List.map_cons, List.cons_append, updateRun, hstop,
      Bool.false_eq_true, if_false]
    exact ih _ rfl

/-- C3: when a backend read fails after a successful start, the capture
loop sets the failure flag and terminates without retry (later backend
activity `junk` is never consumed), and the next `read` poll raises
`CameraConnectionLost` rather than blocking. -/
theorem claim_C3 (pre : List Frame) (junk : List ReadResult)
    (s : StreamSt) (hstop : s.stopped = false) :
    (updateRun (pre.map some ++ none :: junk) s).update_failure = true ∧
    updateRun (pre.map some ++ none :: junk) s =
      updateRun (pre.map some ++ [none]) s ∧
    readPoll (updateRun (pre.map some ++ none :: junk) s) =
      .raisedConnectionLost := by
  have h1 := updateRun_fail pre junk s hstop
  have h2 := updateRun_fail pre [] s hstop
  refine ⟨by rw [h1], by rw [h1, h2], ?_⟩
  rw [h1]
  simp [readPoll]

/-- Concrete instantiation of C3: one good frame, then a failed read, then
further backend results that are never consumed; from the freshly started
state the loop records the failure and the next poll raises. -/
theorem claim_C3_witness :
    (updateRun ([4].map some ++ none :: [some 9]) initState).update_failure
        = true ∧
    updateRun ([4].map some ++ none :: [some 9]) initState =
      updateRun ([4].map some ++ [none]) initState ∧
    readPoll (updateRun ([4].map some ++ none :: [some 9]) initState) =
      .raisedConnectionLost :=
  claim_C3 [4] [some 9] initState rfl

/-! ### Stats collector (`update_fps_stats` and counters) -/

/-- The tick body run by the 1-second `RepeatTimer`: copy the live
`frames_read` and `frames_displayed` counters into the `last_` snapshot
pair and reset both live counters to zero. -/
def update_fps_stats (s : StreamSt) : StreamSt :=
  { s with
      last_frames_read := s.frames_read
      last_frames_displayed := s.frames_displayed
      frames_read := 0
      frames_displayed := 0 }

/-- One `self.frames_read += 1` increment by the capture loop. -/
def incFramesRead (s : StreamSt) : StreamSt :=
  { s with frames_read := s.frames_read + 1 }

/-- One `video_stream.frames_displayed += 1` increment by the consumer. -/
def incFramesDisplayed (s : StreamSt) : StreamSt :=
  { s with frames_displayed := s.frames_displayed + 1 }

/-- Iterated `frames_read` increments. -/
def incFramesReadN : Nat → StreamSt → StreamSt
  | 0, s => s
  | n + 1, s => incFramesRead (incFramesReadN n s)

/-- Iterated `frames_displayed` increments. -/
def incFramesDisplayedN : Nat → StreamSt → StreamSt
  | 0, s => s
  | n + 1, s => incFramesDisplayed (incFramesDisplayedN n s)

theorem incFramesReadN_eq (n : Nat) (s : StreamSt) :
    incFramesReadN n s = { s with frames_read := s.frames_read + n } := by
  induction n with
  | zero => rfl
  | succ n ih =>
    simp [incFramesReadN, ih, incFramesRead]
    omega

theorem incFramesDisplayedN_eq (n : Nat) (s : StreamSt) :
    incFramesDisplayedN n s =
      { s with frames_displayed := s.frames_displayed + n } := by
  induction n with
  | zero => rfl
  | succ n ih =>
    simp [incFramesDisplayedN, ih, incFramesDisplayed]
    omega

/-! ### Claim C7 -/

/-- C7: one stats tick after `k` `frames_read` increments and `m`
`frames_displayed` increments from the initial state, with no other
activity, leaves `last_frames_read = k`, `last_frames_displayed = m` and
both live counters at zero. -/
theorem claim_C7 (k m : Nat) :
    (update_fps_stats (incFramesDisplayedN m
        (incFramesReadN k initState))).last_frames_read = k ∧
    (update_fps_stats (incFramesDisplayedN m
        (incFramesReadN k initState))).last_frames_displayed = m ∧
    (update_fps_stats (incFramesDisplayedN m
        (incFramesReadN k initState))).frames_read = 0 ∧
    (update_fps_stats (incFramesDisplayedN m
        (incFramesReadN k initState))).frames_displayed = 0 := by
  simp [incFramesReadN_eq, incFramesDisplayedN_eq, update_fps_stats,
    initState]

/-! ### `_BaseVideoStream.start` -/

/-- How the backend behaves when `cv2.VideoCapture(cmd, backend)` is
called: the constructor may raise `RuntimeError`, return `None`, return a
capture object whose `isOpened()` is false, or return an opened capture. -/
inductive OpenOutcome where
  | constructRaises
  | streamNone
  | notOpened
  | opened
  deriving Repr, DecidableEq

/-- The three ways `start` can raise `CameraFailedToStart`, matching the
three raise sites: the constructor raised, the guard
`self._stream is None or not self._stream.isOpened()`, and the failed
first grab. -/
inductive StartCause where
  | openRaised
  | streamNotOpen
  | failedToGrabFrame
  deriving Repr, DecidableEq

/-- The exception surfaced by `start`. -/
inductive CamError where
  | cameraFailedToStart (cause : StartCause)
  deriving Repr, DecidableEq

/-- The method `_BaseVideoStream.start`: construct the backend capture, check it is
open, synchronously grab one probe frame (`firstRead`), and only then
create and start the `_update` thread. Every failure raises
`CameraFailedToStart` before the thread exists; the probe frame is checked
and then dropped: it is neither queued nor counted. The object state is
returned alongside the outcome, as the Python object survives the
exception. -/
def start (o : OpenOutcome) (firstRead : ReadResult) (s : StreamSt) :
    Except CamError Unit × StreamSt :=
  match o with
  | .constructRaises => (.error (.cameraFailedToStart .openRaised), s)
  | .streamNone => (.error (.cameraFailedToStart .streamNotOpen), s)
  | .notOpened => (.error (.cameraFailedToStart .streamNotOpen), s)
  | .opened =>
    match firstRead with
    | none => (.error (.cameraFailedToStart .failedToGrabFrame), s)
    | some _ => (.ok (), { s with thread_started := true })

/-! ### Claim C5 -/

/-- C5: `start` raises `CameraFailedToStart` both when the backend cannot
open the descriptor (constructor raises, returns `None`, or the capture is
not opened) and when the first synchronous read fails; in every failure
case the state is returned unchanged, so no background capture thread has
been started when the call returns. -/
theorem claim_C5 (fr : ReadResult) :
    start .constructRaises fr initState =
      (.error (.cameraFailedToStart .openRaised), initState) ∧
    start .streamNone fr initState =
      (.error (.cameraFailedToStart .streamNotOpen), initState) ∧
    start .notOpened fr initState =
      (.error (.cameraFailedToStart .streamNotOpen), initState) ∧
    start .opened none initState =
      (.error (.cameraFailedToStart .failedToGrabFrame), initState) ∧
    initState.thread_started = false := by
  refine ⟨rfl, rfl, rfl, rfl, rfl⟩

/-! ### Claim C10 -/

/-- C10: a successful `start` consumes exactly one probe frame `f` and
discards it: after `start` returns, `frames_read` is still 0 and the frame
queue is still empty, while the capture thread has been started; counting
and buffering then cover exactly the frames `fs` read by the `_update`
loop, with `f` appearing nowhere. -/
theorem claim_C10 (f : Frame) (fs : List Frame) :
    (start .opened (some f) initState).1 = .ok () ∧
    (start .opened (some f) initState).2.frames_read = 0 ∧
    (start .opened (some f) initState).2.frame_queue = [] ∧
    (start .opened (some f) initState).2.thread_started = true ∧
    (updateRun (fs.map some) (start .opened (some f) initState).2).frames_read
        = fs.length ∧
    (updateRun (fs.map some) (start .opened (some f) initState).2).frame_queue
        = List.take 2 fs.reverse := by
  have h := updateRun_somes fs
    { initState with thread_started := true } rfl (by simp [initState])
  refine ⟨rfl, rfl, rfl, rfl, ?_, ?_⟩
  · show (updateRun (fs.map some)
        { initState with thread_started := true }).frames_read = fs.length
    rw [h]
    simp [initState]
  · show (updateRun (fs.map some)
        { initState with thread_started := true }).frame_queue =
      List.take 2 fs.reverse
    rw [h]
    simp [initState]

/-! ### Stats collector lifecycle (`start_counting_fps` / `release_fps_stats`) -/

/-- Timer bookkeeping for the fps collector. `fps_timer` models the
`self.fps_timer` attribute (`none` until a `RepeatTimer` is assigned);
`running` lists the identities of timers that have been created and
started but not cancelled; `next_id` supplies the identity of the next
`RepeatTimer` object to be constructed. -/
structure FpsSt where
  fps_timer : Option Nat
  running : List Nat
  next_id : Nat
  deriving Repr, DecidableEq

/-- The fps-timer state after `_BaseVideoStream.__init__`:
`self.fps_timer = None`, no timer running. -/
def initFps : FpsSt :=
  { fps_timer := none, running := [], next_id := 0 }

/-- Exceptions the fps-collector lifecycle can raise. Calling a method on
`None` (an unset `self.fps_timer`) raises `AttributeError`. -/
inductive PyErr where
  | attributeErrorNone
  deriving Repr, DecidableEq

/-- The method `_BaseVideoStream.start_counting_fps`: construct a fresh
`RepeatTimer(1.0, self.update_fps_stats)`, assign it to `self.fps_timer`,
and start it. Every statement in the body succeeds unconditionally — a
newly constructed `threading.Timer` can always be started — so the call
never raises, whatever the current state; any previously assigned timer is
merely overwritten and keeps running. -/
def start_counting_fps (s : FpsSt) : Except PyErr FpsSt :=
  .ok
    { fps_timer := some s.next_id
      running := s.next_id :: s.running
      next_id := s.next_id + 1 }

/-- The method `_BaseVideoStream.release_fps_stats`: `self.fps_timer.cancel()` then
`self.fps_timer.join()`. When `self.fps_timer` is still `None` the
attribute access raises `AttributeError`; otherwise the assigned timer is
cancelled and joined. -/
def release_fps_stats (s : FpsSt) : Except PyErr FpsSt :=
  match s.fps_timer with
  | none => .error .attributeErrorNone
  | some t => .ok { s with running := s.running.erase t }

/-! ### Claim C8 -/

/-- C8 counterexample: starting the stats collector twice is not reported
to the caller: the second `start_counting_fps` call succeeds, silently
creating and starting a second timer while the first keeps running. -/
theorem claim_C8_counterexample :
    (start_counting_fps initFps).bind start_counting_fps =
      .ok { fps_timer := some 1, running := [1, 0], next_id := 2 } := by
  rfl

/-- C8 amended: stopping the collector before it was started does surface
an error to the caller (`AttributeError` on the unset `fps_timer`), but
starting it twice is silently accepted: the second call succeeds and
leaves two timers running, the first of them leaked. -/
theorem claim_C8_amended :
    release_fps_stats initFps = .error .attributeErrorNone ∧
    (start_counting_fps initFps).bind start_counting_fps =
      .ok { fps_timer := some 1, running := [1, 0], next_id := 2 } ∧
    ∀ s : FpsSt, (start_counting_fps s).isOk = true := by
  refine ⟨rfl, rfl, fun s => rfl⟩

/-! ### `JetsonVideoStream.__init__` configuration tables -/

/-- The `FrameRotation` enum: rotation applied to each frame, in degrees. -/
inductive FrameRotation where
  | ROTATE_NONE
  | ROTATE_90
  | ROTATE_180
  deriving Repr, DecidableEq

/-- The `JetsonCameraMode` enum: sensor mode of the CSI camera. Per its
docstring, each member name carries the sensor part, the capture width and
height, the framerate, and the internal sensor-mode index. -/
inductive JetsonCameraMode where
  | IMX219_3264x2468_21_0
  | IMX219_3264x1848_28_1
  | IMX219_1920x1080_30_2
  | IMX219_1640x1232_30_3
  | IMX477_4032x3040_30_0
  | IMX477_1920x1080_60_1
  | IMX477_2560x1440_40_3
  deriving Repr, DecidableEq

/-- The `rotation` argument as Python receives it: either one of the three
`FrameRotation` members, or any other value (which compares unequal to
every member in the `if`/`elif` chain). -/
inductive RotationArg where
  | valid (r : FrameRotation)
  | invalid (junk : Nat)
  deriving Repr, DecidableEq

/-- The `camera_mode` argument as Python receives it: either one of the
seven `JetsonCameraMode` members, or any other value. -/
inductive CameraModeArg where
  | valid (m : JetsonCameraMode)
  | invalid (junk : Nat)
  deriving Repr, DecidableEq

/-- Which constructor argument was rejected. -/
inductive ConfigParam where
  | rotationParam
  | cameraModeParam
  deriving Repr, DecidableEq

/-- The configuration error of `JetsonVideoStream.__init__`, modelling the
`ValueError('Invalid input for ...')` raise sites (the spec's
`ConfigurationError`). -/
inductive JetsonError where
  | configurationError (p : ConfigParam)
  deriving Repr, DecidableEq

/-- The derived capture parameters of a `JetsonVideoStream`:
`(self._mode, self._capture_width, self._capture_height, self._framerate)`
and the `nvvidconv` flip code. -/
structure JetsonProfile where
  mode : Nat
  capture_width : Nat
  capture_height : Nat
  framerate : Nat
  flip : Nat
  deriving Repr, DecidableEq

/-- The rotation `if`/`elif` chain of `JetsonVideoStream.__init__`: each
enumerated rotation maps to its flip code, anything else raises. -/
def resolveFlip : RotationArg → Except JetsonError Nat
  | .valid .ROTATE_NONE => .ok 0
  | .valid .ROTATE_90 => .ok 1
  | .valid .ROTATE_180 => .ok 2
  | .invalid _ => .error (.configurationError .rotationParam)

/-- The sensor-mode `if`/`elif` chain of `JetsonVideoStream.__init__`:
each enumerated mode maps to
`(self._mode, self._capture_width, self._capture_height, self._framerate)`,
anything else raises. -/
def resolveMode : CameraModeArg → Except JetsonError (Nat × Nat × Nat × Nat)
  | .valid .IMX219_3264x2468_21_0 => .ok (0, 3264, 2468, 21)
  | .valid .IMX219_3264x1848_28_1 => .ok (1, 3264, 1848, 28)
  | .valid .IMX219_1920x1080_30_2 => .ok (2, 1920, 1080, 30)
  | .valid .IMX219_1640x1232_30_3 => .ok (3, 1640, 1232, 30)
  | .valid .IMX477_4032x3040_30_0 => .ok (0, 4032, 3040, 30)
  | .valid .IMX477_1920x1080_60_1 => .ok (1, 1920, 1080, 60)
  | .valid .IMX477_2560x1440_40_3 => .ok (3, 2560, 1440, 40)
  | .invalid _ => .error (.configurationError .cameraModeParam)

/-- Profile construction in `JetsonVideoStream.__init__`: the rotation
chain runs first, then the sensor-mode chain; the first failing chain
raises and nothing is defaulted. -/
def jetsonProfile (rotation : RotationArg) (camera_mode : CameraModeArg) :
    Except JetsonError JetsonProfile := do
  let flip ← resolveFlip rotation
  let t ← resolveMode camera_mode
  .ok
    { mode := t.1
      capture_width := t.2.1
      capture_height := t.2.2.1
      framerate := t.2.2.2
      flip := flip }

/-- The capture tuple documented by each `JetsonCameraMode` member name
(second component: width x height, third: framerate, fourth: sensor-mode
index), per the enum's docstring. -/
def documentedModeTable : JetsonCameraMode → Nat × Nat × Nat × Nat
  | .IMX219_3264x2468_21_0 => (0, 3264, 2468, 21)
  | .IMX219_3264x1848_28_1 => (1, 3264, 1848, 28)
  | .IMX219_1920x1080_30_2 => (2, 1920, 1080, 30)
  | .IMX219_1640x1232_30_3 => (3, 1640, 1232, 30)
  | .IMX477_4032x3040_30_0 => (0, 4032, 3040, 30)
  | .IMX477_1920x1080_60_1 => (1, 1920, 1080, 60)
  | .IMX477_2560x1440_40_3 => (3, 2560, 1440, 40)

/-- The flip code documented for each rotation: 0° → 0, 90° → 1,
180° → 2 (`nvvidconv flip-method`). -/
def documentedFlip : FrameRotation → Nat
  | .ROTATE_NONE => 0
  | .ROTATE_90 => 1
  | .ROTATE_180 => 2

/-- The profile the documentation promises for a valid
`(rotation, camera_mode)` pair. -/
def documentedProfile (r : FrameRotation) (m : JetsonCameraMode) :
    JetsonProfile :=
  { mode := (documentedModeTable m).1
    capture_width := (documentedModeTable m).2.1
    capture_height := (documentedModeTable m).2.2.1
    framerate := (documentedModeTable m).2.2.2
    flip := documentedFlip r }

/-! ### Claim C4 -/

/-- C4: for every valid `(rotation, camera_mode)` pair, profile
construction yields exactly the documented
`(mode, capture_width, capture_height, framerate, flip)` tuple; for every
value of either argument outside the enumerated members, construction
fails with the configuration error naming the offending parameter, and no
silent default is applied. -/
theorem claim_C4 :
    (∀ (r : FrameRotation) (m : JetsonCameraMode),
      jetsonProfile (.valid r) (.valid m) = .ok (documentedProfile r m)) ∧
    (∀ (n : Nat) (m : CameraModeArg),
      jetsonProfile (.invalid n) m =
        .error (.configurationError .rotationParam)) ∧
    (∀ (r : FrameRotation) (n : Nat),
      jetsonProfile (.valid r) (.invalid n) =
        .error (.configurationError .cameraModeParam)) := by
  refine ⟨fun r m => ?_, fun n m => rfl, fun r n => ?_⟩
  · cases r <;> cases m <;> rfl
  · cases r <;> rfl

/-! ### `_BaseVideoStream.stop` versus the capture thread

An interleaving model of the two threads active during `stop()`:
the caller executing `self._stopped = True; self._thread.join();
self._stream.release()`, and the `_update` capture thread alternating
between the `self._stopped` test and the backend read. The `join`
transition is enabled only once the capture loop has returned, which is
exactly the guarantee `threading.Thread.join` provides. Backend reads and
the device release are the observable events. -/

/-- Program counter of the caller running `stop()`. -/
inductive MainPC where
  | ready
  | stopFlagSet
  | joinedThread
  | releasedStream
  deriving Repr, DecidableEq

/-- Program counter of the `_update` capture thread: about to test
`self._stopped`, about to call `self._stream.read()`, or returned. -/
inductive ThrPC where
  | atCheck
  | atRead
  | exited
  deriving Repr, DecidableEq

/-- Joint state of the two threads during `stop()`. `readsIssued` indexes
the backend tape with the number of reads issued so far. -/
structure SysSt where
  main : MainPC
  thr : ThrPC
  stopped : Bool
  update_failure : Bool
  readsIssued : Nat
  deriving Repr, DecidableEq

/-- Observable events: a backend read issued by the capture thread, the
device release by `stop()`, and internal steps. -/
inductive Ev where
  | readEv
  | releaseEv
  | tau
  deriving Repr, DecidableEq

/-- One interleaved step of the stop/capture system over a backend tape.
The caller's three statements run in program order; `joinThread` requires
the capture loop to have returned; the capture thread either observes the
stop flag and exits, or passes the check and performs the next backend
read, which on failure sets the failure flag and ends the loop. -/
inductive SysStep (tape : Nat → Option Frame) : SysSt → Ev → SysSt → Prop where
  | setStop {s : SysSt} : s.main = .ready →
      SysStep tape s .tau { s with main := .stopFlagSet, stopped := true }
  | joinThread {s : SysSt} : s.main = .stopFlagSet → s.thr = .exited →
      SysStep tape s .tau { s with main := .joinedThread }
  | releaseStream {s : SysSt} : s.main = .joinedThread →
      SysStep tape s .releaseEv { s with main := .releasedStream }
  | thrCheckStopped {s : SysSt} : s.thr = .atCheck → s.stopped = true →
      SysStep tape s .tau { s with thr := .exited }
  | thrCheckPassed {s : SysSt} : s.thr = .atCheck → s.stopped = false →
      SysStep tape s .tau { s with thr := .atRead }
  | thrReadOk {s : SysSt} {f : Frame} : s.thr = .atRead →
      tape s.readsIssued = some f →
      SysStep tape s .readEv
        { s with thr := .atCheck, readsIssued := s.readsIssued + 1 }
  | thrReadFail {s : SysSt} : s.thr = .atRead →
      tape s.readsIssued = none →
      SysStep tape s .readEv
        { s with
            thr := .exited
            update_failure := true
            readsIssued := s.readsIssued + 1 }

/-- A finite interleaved run, recording the events emitted. -/
inductive SysTrace (tape : Nat → Option Frame) : SysSt → List Ev → SysSt → Prop where
  | nil {s : SysSt} : SysTrace tape s [] s
  | cons {s s1 s2 : SysSt} {e : Ev} {evs : List Ev} :
      SysStep tape s e s1 → SysTrace tape s1 evs s2 →
      SysTrace tape s (e :: evs) s2

/-- The state in which `stop()` is called on a running stream: the caller
at its first statement, the capture thread at the top of its loop. -/
def stopInit : SysSt :=
  { main := .ready
    thr := .atCheck
    stopped := false
    update_failure := false
    readsIssued := 0 }

/-- The join invariant: once the caller has passed `join()` (and in
particular once it has released the device), the capture loop has
returned. -/
def SysInv (s : SysSt) : Prop :=
  s.main = .joinedThread ∨ s.main = .releasedStream → s.thr = .exited

theorem sysInv_step {tape : Nat → Option Frame} {s s1 : SysSt} {e : Ev}
    (hstep : SysStep tape s e s1) (hinv : SysInv s) : SysInv s1 := by
  cases hstep with
  | setStop h => intro hm; rcases hm with hm | hm <;> simp_all
  | joinThread h ht => intro hm; simpa using ht
  | releaseStream h => intro hm; simpa using hinv (Or.inl h)
  | thrCheckStopped h hs => intro hm; rfl
  | thrCheckPassed h hs =>
    intro hm
    have := hinv hm
    rw [h] at this
    cases this
  | thrReadOk h hr =>
    intro hm
    have := hinv hm
    rw [h] at this
    cases this
  | thrReadFail h hr => intro hm; rfl

theorem sysInv_trace {tape : Nat → Option Frame} {s s2 : SysSt}
    {evs : List Ev} (htr : SysTrace tape s evs s2) (hinv : SysInv s) :
    SysInv s2 := by
  induction htr with
  | nil => exact hinv
  | cons hstep _ ih => exact ih (sysInv_step hstep hinv)

/-- Once the capture loop has returned, no later step is a backend read. -/
theorem exited_no_read {tape : Nat → Option Frame} {s s2 : SysSt}
    {evs : List Ev} (htr : SysTrace tape s evs s2)
    (hthr : s.thr = .exited) : Ev.readEv ∉ evs := by
  induction htr with
  | nil => simp
  | cons hstep htail ih =>
    cases hstep with
    | setStop h =>
      simp only [List.mem_cons]
      rintro (hc | hc)
      · cases hc
      · exact ih (by simpa using hthr) hc
    | joinThread h ht =>
      simp only [List.mem_cons]
      rintro (hc | hc)
      · cases hc
      · exact ih (by simpa using hthr) hc
    | releaseStream h =>
      simp only [List.mem_cons]
      rintro (hc | hc)
      · cases hc
      · exact ih (by simpa using hthr) hc
    | thrCheckStopped h hs => rw [hthr] at h; cases h
    | thrCheckPassed h hs => rw [hthr] at h; cases h
    | thrReadOk h hr => rw [hthr] at h; cases h
    | thrReadFail h hr => rw [hthr] at h; cases h

/-- Splitting a run at a designated event. -/
theorem sysTrace_append_split {tape : Nat → Option Frame} {s s2 : SysSt}
    (l1 : List Ev) {l2 : List Ev} {e : Ev}
    (htr : SysTrace tape s (l1 ++ e :: l2) s2) :
    ∃ sa sb, SysTrace tape s l1 sa ∧ SysStep tape sa e sb ∧
      SysTrace tape sb l2 s2 := by
  induction l1 generalizing s with
  | nil =>
    cases htr with
    | cons hstep htail => exact ⟨s, _, SysTrace.nil, hstep, htail⟩
  | cons e1 l1 ih =>
    cases htr with
    | cons hstep htail =>
      obtain ⟨sa, sb, h1, h2, h3⟩ := ih htail
      exact ⟨sa, sb, SysTrace.cons hstep h1, h2, h3⟩

/-! ### Claim C6 -/

/-- C6: `stop()` sets the stop flag, joins the capture thread, and only
then releases the device: in every interleaved run from a running stream,
once the release event has occurred no backend read event follows, so no
read is ever issued on a released device. -/
theorem claim_C6 (tape : Nat → Option Frame) (evs : List Ev) (s2 : SysSt)
    (pre post : List Ev) (htr : SysTrace tape stopInit evs s2)
    (hsplit : evs = pre ++ Ev.releaseEv :: post) :
    Ev.readEv ∉ post := by
  subst hsplit
  obtain ⟨sa, sb, h1, h2, h3⟩ := sysTrace_append_split pre htr
  have hinvA : SysInv sa :=
    sysInv_trace h1 (by intro hm; rcases hm with hm | hm <;> cases hm)
  cases h2 with
  | releaseStream h =>
    have hexit : sa.thr = .exited := hinvA (Or.inl h)
    exact exited_no_read h3 (by simpa using hexit)

/-- Concrete instantiation of C6: the run in which the caller sets the
stop flag, the capture thread observes it and exits, and the caller joins
and releases; no read event can follow the release. -/
theorem claim_C6_witness : Ev.readEv ∉ ([] : List Ev) := by
  apply claim_C6 (fun _ => none) [Ev.tau, Ev.tau, Ev.tau, Ev.releaseEv]
    { main := .releasedStream
      thr := .exited
      stopped := true
      update_failure := false
      readsIssued := 0 }
    [Ev.tau, Ev.tau, Ev.tau] []
  · exact SysTrace.cons (SysStep.setStop rfl)
      (SysTrace.cons (SysStep.thrCheckStopped rfl rfl)
        (SysTrace.cons (SysStep.joinThread rfl rfl)
          (SysTrace.cons (SysStep.releaseStream rfl) SysTrace.nil)))
  · rfl

end EnhancedCsi
